import Mathlib

/-
Verification of the tick-dispatch, single-flight guard and result-translation
pipeline of carla::client::RssSensor (LibCarla/source/carla/rss/RssSensor.cpp).

The external ad_rss safety library and the world/actor plumbing are external
collaborators: they are embedded as records and as an evaluation oracle that
may fault, following the scope of the specification. The sensor code itself
(Listen, TickRssSensor, Stop, the dynamics accessors) is translated from the
source file.
-/

namespace CarlaRss

/-- Timestamp of one world tick: frame index plus elapsed simulation seconds
(the double is modelled as a rational). -/
structure Timestamp where
  frame : Nat
  elapsed_seconds : Rat
deriving DecidableEq, Repr

/-- Pose of the sensor actor, as returned by GetTransform(); carried into the
response unchanged and never inspected by this code. -/
structure Transform where
  x : Rat
  y : Rat
  z : Rat
deriving DecidableEq, Repr

/-- Handle to the map captured by Listen (GetWorld().GetMap()); never inspected
by this code. -/
structure Map where
  id : Nat
deriving DecidableEq, Repr

def Map.default : Map := ⟨0⟩

namespace ad_rss

/-- External longitudinal response classification
(::ad_rss::state::LongitudinalResponse). -/
inductive LongitudinalResponse where
  | None
  | BrakeMinCorrect
  | BrakeMin
deriving DecidableEq, Repr, Fintype

/-- External lateral response classification (::ad_rss::state::LateralResponse). -/
inductive LateralResponse where
  | None
  | BrakeMin
deriving DecidableEq, Repr, Fintype

/-- External verdict record (::ad_rss::state::ProperResponse); only the three
response fields read by RssSensor.cpp are modelled. -/
structure ProperResponse where
  longitudinalResponse : LongitudinalResponse
  lateralResponseRight : LateralResponse
  lateralResponseLeft : LateralResponse
deriving DecidableEq, Repr, Fintype

/-- Modelled from the spec: the default-constructed verdict used on the
skip-on-busy path has all responses None (spec section 4.2 step 1: default
or empty verdict, all responses none). The ad_rss library itself is not part
of the sources. -/
def ProperResponse.default : ProperResponse :=
  { longitudinalResponse := LongitudinalResponse.None
    lateralResponseRight := LateralResponse.None
    lateralResponseLeft := LateralResponse.None }

/-- External acceleration range record with zero default
(::ad_rss::world::AccelerationRange); opaque to the sensor code. -/
structure AccelerationRange where
  minimum : Rat
  maximum : Rat
deriving DecidableEq, Repr

/-- Modelled from the spec: external acceleration-restriction record
(::ad_rss::world::AccelerationRestriction), default-constructed to zero-valued
ranges (spec: zero-valued physical quantities); never inspected by the sensor
code, only default-constructed and forwarded. -/
structure AccelerationRestriction where
  lateralLeftRange : AccelerationRange
  longitudinalRange : AccelerationRange
  lateralRightRange : AccelerationRange
deriving DecidableEq, Repr

def AccelerationRestriction.default : AccelerationRestriction :=
  ⟨⟨0, 0⟩, ⟨0, 0⟩, ⟨0, 0⟩⟩

/-- Modelled from the spec: external ego-velocity record
(::ad_rss::world::Velocity), default-constructed to zero components; never
inspected by the sensor code. -/
structure Velocity where
  speedLon : Rat
  speedLat : Rat
deriving DecidableEq, Repr

def Velocity.default : Velocity := ⟨0, 0⟩

/-- Modelled from the spec: a dynamics profile (::ad_rss::world::RssDynamics)
describing vehicle dynamic limits; opaque to the sensor code, which only
stores and retrieves it through the RssCheck backend. -/
structure RssDynamics where
  maxAccel : Rat
  maxBrake : Rat
  responseTime : Rat
deriving DecidableEq, Repr

def RssDynamics.default : RssDynamics := ⟨0, 0, 0⟩

end ad_rss

namespace sensor_data

/-- Output longitudinal response vocabulary
(carla::sensor::data::LongitudinalResponse). -/
inductive LongitudinalResponse where
  | None
  | BrakeMinCorrect
  | BrakeMin
deriving DecidableEq, Repr, Fintype

/-- Output lateral response vocabulary (carla::sensor::data::LateralResponse). -/
inductive LateralResponse where
  | None
  | BrakeMin
deriving DecidableEq, Repr, Fintype

end sensor_data

/-- Modelled from the spec: the Response record (carla::sensor::data::RssResponse,
whose header is not part of the sources): frame, elapsed seconds, pose, success
flag, three translated responses, and the two forwarded physical records. -/
structure Response where
  frame : Nat
  elapsed_seconds : Rat
  pose : Transform
  success : Bool
  longitudinal_response : sensor_data.LongitudinalResponse
  lateral_response_right : sensor_data.LateralResponse
  lateral_response_left : sensor_data.LateralResponse
  acceleration_restriction : ad_rss.AccelerationRestriction
  ego_velocity : ad_rss.Velocity
deriving DecidableEq, Repr

/-- Translation switch for the longitudinal response (RssSensor.cpp lines 79-89). -/
def translateLongitudinal :
    ad_rss.LongitudinalResponse → sensor_data.LongitudinalResponse
  | ad_rss.LongitudinalResponse.None => sensor_data.LongitudinalResponse.None
  | ad_rss.LongitudinalResponse.BrakeMinCorrect =>
      sensor_data.LongitudinalResponse.BrakeMinCorrect
  | ad_rss.LongitudinalResponse.BrakeMin => sensor_data.LongitudinalResponse.BrakeMin

/-- Translation switch for the right lateral response (RssSensor.cpp lines 90-97). -/
def translateLateralRight : ad_rss.LateralResponse → sensor_data.LateralResponse
  | ad_rss.LateralResponse.None => sensor_data.LateralResponse.None
  | ad_rss.LateralResponse.BrakeMin => sensor_data.LateralResponse.BrakeMin

/-- Translation switch for the left lateral response (RssSensor.cpp lines 98-105). -/
def translateLateralLeft : ad_rss.LateralResponse → sensor_data.LateralResponse
  | ad_rss.LateralResponse.None => sensor_data.LateralResponse.None
  | ad_rss.LateralResponse.BrakeMin => sensor_data.LateralResponse.BrakeMin

/-- Combined translation of the three verdict fields, as performed by the three
consecutive switches of TickRssSensor. -/
def translateTriple (r : ad_rss.ProperResponse) :
    sensor_data.LongitudinalResponse × sensor_data.LateralResponse ×
      sensor_data.LateralResponse :=
  (translateLongitudinal r.longitudinalResponse,
   translateLateralRight r.lateralResponseRight,
   translateLateralLeft r.lateralResponseLeft)

/-- Evaluation backend constructed by Listen (::carla::rss::RssCheck, external
library): it owns the two dynamics profiles consulted by checkObjects. -/
structure RssCheck where
  egoVehicleDynamics : ad_rss.RssDynamics
  otherVehicleDynamics : ad_rss.RssDynamics
deriving DecidableEq, Repr

/-- Freshly constructed backend (std::make_shared<RssCheck>() at line 40), with
the external default dynamics profiles. -/
def RssCheck.default : RssCheck := ⟨ad_rss.RssDynamics.default, ad_rss.RssDynamics.default⟩

/-- State of one RssSensor object: attachment, listening flag, the try-lock
guard (true = held), the optional backend and map created by Listen, the
visualization flag forwarded to checkObjects, and the log of emitted error
or fault messages. -/
structure SensorState where
  hasParent : Bool
  is_listening : Bool
  processing_lock : Bool
  mRssCheck : Option RssCheck
  map : Option Map
  visualize_results : Bool
  log : List String
deriving DecidableEq, Repr

/-- Modelled from the spec: a fresh sensor session (spec section 3, Session
state): Idle, guard free, no backend or map captured yet; the header holding
the member initializers is not part of the sources. -/
def initialSensor (hasParent : Bool) : SensorState :=
  { hasParent := hasParent
    is_listening := false
    processing_lock := false
    mRssCheck := none
    map := none
    visualize_results := false
    log := [] }

/-- Outcome of one successful external evaluation: the success flag written by
checkObjects together with the verdict and the two physical records it fills. -/
structure CheckOutcome where
  result : Bool
  response : ad_rss.ProperResponse
  accelerationRestriction : ad_rss.AccelerationRestriction
  egoVelocity : ad_rss.Velocity
deriving DecidableEq, Repr

/-- Oracle for the guarded external calls of TickRssSensor (lines 66-72): the
snapshot gathering plus mRssCheck->checkObjects, which may raise. Its sensor
side inputs are the two dynamics profiles held by the backend and the
visualization flag; the world and actor arguments are external plumbing
outside the scope of the specification. A fault carries the message printed
by the catch handler. -/
def CheckOracle : Type :=
  Timestamp → ad_rss.RssDynamics → ad_rss.RssDynamics → Bool →
    Except String CheckOutcome

/-- Guard events emitted by one run of TickRssSensor, instrumenting the calls
on _processing_lock exactly where they occur in the source. -/
inductive GuardEvent where
  | tryAcquireSuccess
  | tryAcquireFail
  | release
deriving DecidableEq, Repr

/-- Construction of the response (lines 75-108): the three switches applied to
the verdict, then MakeShared<RssResponse> with the tick timestamp, the pose
and the forwarded records. -/
def makeResponse (ts : Timestamp) (tf : Transform) (result : Bool)
    (response : ad_rss.ProperResponse) (ar : ad_rss.AccelerationRestriction)
    (v : ad_rss.Velocity) : Response :=
  { frame := ts.frame
    elapsed_seconds := ts.elapsed_seconds
    pose := tf
    success := result
    longitudinal_response := translateLongitudinal response.longitudinalResponse
    lateral_response_right := translateLateralRight response.lateralResponseRight
    lateral_response_left := translateLateralLeft response.lateralResponseLeft
    acceleration_restriction := ar
    ego_velocity := v }

/-- One tick of the sensor (RssSensor::TickRssSensor, lines 59-115). Returns
the emitted data (none on the fault path, mirroring the nullptr return), the
new sensor state, and the trace of guard events. The defaults of lines 61-64
are translated and returned when try_lock fails; on a successful acquisition
the external evaluation runs, the guard is released at line 73, and the
verdict is translated; the catch handler (lines 109-114) prints the fault,
unlocks and returns nullptr. -/
def TickRssSensor (check : CheckOracle) (tf : Transform) (s : SensorState)
    (ts : Timestamp) : Option Response × SensorState × List GuardEvent :=
  if s.processing_lock then
    -- try_lock returned false: skip the check and emit the translated defaults
    (some (makeResponse ts tf false ad_rss.ProperResponse.default
            ad_rss.AccelerationRestriction.default ad_rss.Velocity.default),
     s, [GuardEvent.tryAcquireFail])
  else
    match s.mRssCheck with
    | none =>
      -- unreachable from ticks registered by Listen, which constructs the
      -- backend first: dereferencing the null backend is undefined behavior
      (none, { s with processing_lock := true }, [GuardEvent.tryAcquireSuccess])
    | some rssCheck =>
      match check ts rssCheck.egoVehicleDynamics rssCheck.otherVehicleDynamics
          s.visualize_results with
      | Except.error e =>
        -- catch block: print e.what(), unlock, return nullptr
        (none, { s with processing_lock := false, log := s.log ++ [e] },
         [GuardEvent.tryAcquireSuccess, GuardEvent.release])
      | Except.ok out =>
        (some (makeResponse ts tf out.result out.response
                out.accelerationRestriction out.egoVelocity),
         { s with processing_lock := false },
         [GuardEvent.tryAcquireSuccess, GuardEvent.release])

/-- Number of successful try_lock calls in a guard trace. -/
def acquireCount (tr : List GuardEvent) : Nat :=
  tr.count GuardEvent.tryAcquireSuccess

/-- Number of unlock calls in a guard trace. -/
def releaseCount (tr : List GuardEvent) : Nat :=
  tr.count GuardEvent.release

/-- One subscription registered on the episode by Listen (lines 45-54): the
owned copy of the callback (identified by a number) and the weak, non-owning
reference to the sensor, resolved against the set of live sensors at each
tick. -/
structure Subscription where
  cb : Nat
  weak_self : Nat
deriving DecidableEq, Repr

/-- State of the episode: the live sensors by identity (a destroyed sensor is
absent, so a weak reference to it resolves to null) and the registered tick
subscriptions in registration order. -/
structure SimState where
  sensors : List (Nat × SensorState)
  subs : List Subscription
deriving DecidableEq, Repr

/-- Replace the state of sensor i among the live sensors. -/
def updateSensor (sensors : List (Nat × SensorState)) (i : Nat)
    (s : SensorState) : List (Nat × SensorState) :=
  sensors.map (fun p => if p.1 = i then (i, s) else p)

/-- RssSensor::Listen on one sensor (lines 26-57): if already listening, log
the error and return with no other effect; if not attached to a vehicle,
throw; otherwise capture the map, construct the RssCheck backend, produce the
tick subscription to register, and set the listening flag. -/
def ListenSensor (s : SensorState) (selfId : Nat) (c : Nat) :
    Except String (SensorState × Option Subscription) :=
  if s.is_listening then
    Except.ok ({ s with log := s.log ++ ["already listening"] }, none)
  else if !s.hasParent then
    Except.error "not attached to vehicle"
  else
    Except.ok
      ({ s with map := some Map.default, mRssCheck := some RssCheck.default,
                is_listening := true },
       some { cb := c, weak_self := selfId })

/-- Listen at the episode level: run ListenSensor on the addressed sensor and
append the produced subscription, when any, to the registered ones. -/
def SimListen (sim : SimState) (i : Nat) (c : Nat) : Except String SimState :=
  match List.lookup i sim.sensors with
  | none => Except.error "no such sensor"
  | some s =>
    match ListenSensor s i c with
    | Except.error e => Except.error e
    | Except.ok (s1, osub) =>
      Except.ok
        { sensors := updateSensor sim.sensors i s1
          subs := match osub with
                  | some sub => sim.subs ++ [sub]
                  | none => sim.subs }

/-- RssSensor::Stop (lines 117-120): only the listening flag is cleared; the
tick subscription registered by Listen is not removed. -/
def Stop (s : SensorState) : SensorState :=
  { s with is_listening := false }

/-- Stop at the episode level. -/
def SimStop (sim : SimState) (i : Nat) : SimState :=
  match List.lookup i sim.sensors with
  | none => sim
  | some s => { sim with sensors := updateSensor sim.sensors i (Stop s) }

/-- Delivery of one world tick to a list of subscriptions, in order (the
closure of lines 46-54 run for each registered subscription): resolve the
weak reference; if the sensor is gone do nothing; otherwise run TickRssSensor
and, when it returns data, invoke the callback with it. Returns the updated
sensors and the list of callback invocations (callback, data). -/
def deliverTickAux (check : CheckOracle) (tf : Transform) (ts : Timestamp) :
    List Subscription → List (Nat × SensorState) →
      List (Nat × SensorState) × List (Nat × Response)
  | [], sensors => (sensors, [])
  | sub :: rest, sensors =>
    match List.lookup sub.weak_self sensors with
    | none => deliverTickAux check tf ts rest sensors
    | some s =>
      let r := TickRssSensor check tf s ts
      let sensors1 := updateSensor sensors sub.weak_self r.2.1
      let next := deliverTickAux check tf ts rest sensors1
      (next.1,
       (match r.1 with
        | some data => [(sub.cb, data)]
        | none => []) ++ next.2)

/-- Delivery of one world tick to the episode. -/
def deliverTick (check : CheckOracle) (tf : Transform) (sim : SimState)
    (ts : Timestamp) : SimState × List (Nat × Response) :=
  let out := deliverTickAux check tf ts sim.subs sim.sensors
  ({ sim with sensors := out.1 }, out.2)

/-- Sequential delivery of a list of ticks to one sensor, collecting the data
emitted per tick. -/
def runTicks (check : CheckOracle) (tf : Transform) :
    SensorState → List Timestamp → SensorState × List (Option Response)
  | s, [] => (s, [])
  | s, ts :: rest =>
    let r := TickRssSensor check tf s ts
    let next := runTicks check tf r.2.1 rest
    (next.1, r.1 :: next.2)

/-- RssSensor::GetEgoVehicleDynamics (lines 122-124): delegates to the backend;
none models the null-backend dereference when Listen has never constructed it. -/
def GetEgoVehicleDynamics (s : SensorState) : Option ad_rss.RssDynamics :=
  match s.mRssCheck with
  | none => none
  | some rc => some rc.egoVehicleDynamics

/-- RssSensor::SetEgoVehicleDynamics (lines 126-128): delegates to the backend;
none models the null-backend dereference. -/
def SetEgoVehicleDynamics (s : SensorState) (d : ad_rss.RssDynamics) :
    Option SensorState :=
  match s.mRssCheck with
  | none => none
  | some rc =>
    some { s with mRssCheck := some { rc with egoVehicleDynamics := d } }

/-- RssSensor::GetOtherVehicleDynamics (lines 130-132). -/
def GetOtherVehicleDynamics (s : SensorState) : Option ad_rss.RssDynamics :=
  match s.mRssCheck with
  | none => none
  | some rc => some rc.otherVehicleDynamics

/-- RssSensor::SetOtherVehicleDynamics (lines 134-136). -/
def SetOtherVehicleDynamics (s : SensorState) (d : ad_rss.RssDynamics) :
    Option SensorState :=
  match s.mRssCheck with
  | none => none
  | some rc =>
    some { s with mRssCheck := some { rc with otherVehicleDynamics := d } }

/-- Guard accounting of a trace: unlock called exactly as often as try_lock
succeeded, and in no prefix do the unlocks outnumber the successful try_locks
(no release without a matching acquisition). -/
def guardBalanced (tr : List GuardEvent) : Prop :=
  releaseCount tr = acquireCount tr ∧
  ∀ n, releaseCount (tr.take n) ≤ acquireCount (tr.take n)

/-! Concrete fixtures used by the witnesses. -/

def tf0 : Transform := ⟨1, 2, 3⟩

def ts0 : Timestamp := ⟨42, 2⟩

/-- A fixed successful evaluation outcome. -/
def okOutcome : CheckOutcome :=
  { result := true
    response :=
      { longitudinalResponse := ad_rss.LongitudinalResponse.BrakeMin
        lateralResponseRight := ad_rss.LateralResponse.None
        lateralResponseLeft := ad_rss.LateralResponse.BrakeMin }
    accelerationRestriction := ad_rss.AccelerationRestriction.default
    egoVelocity := ad_rss.Velocity.default }

/-- An external evaluation that always succeeds with a fixed verdict. -/
def checkOk : CheckOracle := fun _ _ _ _ => Except.ok okOutcome

/-- An external evaluation that always raises. -/
def checkErr : CheckOracle := fun _ _ _ _ => Except.error "evaluation failed"

/-- Episode with one fresh attached sensor (identity 0) and no subscriptions. -/
def sim0 : SimState := { sensors := [(0, initialSensor true)], subs := [] }

/-- The episode after Listen with callback 7 on sensor 0. -/
def simListened : SimState := (SimListen sim0 0 7).toOption.getD sim0

/-- The episode after Listen with callback 7 and then Stop on sensor 0. -/
def simStopped : SimState := SimStop simListened 0

/-- A sensor in the Listening state with a freshly constructed backend. -/
def listeningSensor : SensorState :=
  { hasParent := true
    is_listening := true
    processing_lock := false
    mRssCheck := some RssCheck.default
    map := some Map.default
    visualize_results := false
    log := [] }

/-- The same sensor while an evaluation is still in flight (guard held). -/
def busySensor : SensorState := { listeningSensor with processing_lock := true }

/-! Helper lemmas. -/

/-- Releasing a guard that is already free leaves the state literally unchanged. -/
theorem unlock_of_free (s : SensorState) (hl : s.processing_lock = false) :
    ({ s with processing_lock := false } : SensorState) = s := by
  cases s
  simp_all

/-- A tick with the guard free, a live backend and a non-faulting evaluation
produces the translated response and returns the sensor to its initial state. -/
theorem tick_ok (check : CheckOracle) (tf : Transform) (ts : Timestamp)
    (s : SensorState) (rc : RssCheck) (out : CheckOutcome)
    (hrc : s.mRssCheck = some rc) (hl : s.processing_lock = false)
    (hok : check ts rc.egoVehicleDynamics rc.otherVehicleDynamics
        s.visualize_results = Except.ok out) :
    TickRssSensor check tf s ts =
      (some (makeResponse ts tf out.result out.response
          out.accelerationRestriction out.egoVelocity), s,
       [GuardEvent.tryAcquireSuccess, GuardEvent.release]) := by
  unfold TickRssSensor
  rw [if_neg (by simp [hl]), hrc]
  dsimp only
  rw [hok]
  dsimp only
  rw [← hrc, unlock_of_free s hl]

/-- A tick with the guard free, a live backend and a faulting evaluation
returns nullptr, logs the fault and leaves the guard free. -/
theorem tick_fault (check : CheckOracle) (tf : Transform) (ts : Timestamp)
    (s : SensorState) (rc : RssCheck) (e : String)
    (hrc : s.mRssCheck = some rc) (hl : s.processing_lock = false)
    (he : check ts rc.egoVehicleDynamics rc.otherVehicleDynamics
        s.visualize_results = Except.error e) :
    TickRssSensor check tf s ts =
      (none, { s with processing_lock := false, log := s.log ++ [e] },
       [GuardEvent.tryAcquireSuccess, GuardEvent.release]) := by
  unfold TickRssSensor
  rw [if_neg (by simp [hl]), hrc]
  dsimp only
  rw [he]

/-! Claim theorems. -/

/-- C1: a tick that begins while the guard is already held still returns a
Response built from the default-constructed verdict: success false, all three
responses None, zero-valued acceleration restriction and ego velocity, with
the sensor state untouched; the tick neither blocks nor raises a fault (the
trace is the single failed try_lock and data is returned, not nullptr). -/
theorem busy_tick_yields_default_response (check : CheckOracle) (tf : Transform)
    (s : SensorState) (ts : Timestamp) (hheld : s.processing_lock = true) :
    TickRssSensor check tf s ts =
      (some { frame := ts.frame
              elapsed_seconds := ts.elapsed_seconds
              pose := tf
              success := false
              longitudinal_response := sensor_data.LongitudinalResponse.None
              lateral_response_right := sensor_data.LateralResponse.None
              lateral_response_left := sensor_data.LateralResponse.None
              acceleration_restriction := ⟨⟨0, 0⟩, ⟨0, 0⟩, ⟨0, 0⟩⟩
              ego_velocity := ⟨0, 0⟩ },
       s, [GuardEvent.tryAcquireFail]) := by
  unfold TickRssSensor
  rw [if_pos hheld]
  rfl

/-- Witness for C1 at a concrete busy sensor. -/
theorem busy_tick_yields_default_response_witness :
    busySensor.processing_lock = true ∧
    TickRssSensor checkOk tf0 busySensor ts0 =
      (some { frame := ts0.frame
              elapsed_seconds := ts0.elapsed_seconds
              pose := tf0
              success := false
              longitudinal_response := sensor_data.LongitudinalResponse.None
              lateral_response_right := sensor_data.LateralResponse.None
              lateral_response_left := sensor_data.LateralResponse.None
              acceleration_restriction := ⟨⟨0, 0⟩, ⟨0, 0⟩, ⟨0, 0⟩⟩
              ego_velocity := ⟨0, 0⟩ },
       busySensor, [GuardEvent.tryAcquireFail]) :=
  ⟨rfl, busy_tick_yields_default_response checkOk tf0 busySensor ts0 rfl⟩

/-- C2: on every execution of TickRssSensor over a live backend, the guard
trace is balanced: unlock is called exactly once per successful try_lock and
never without a matching successful try_lock, on the skip, success and
exception paths alike. -/
theorem guard_release_matches_acquire (check : CheckOracle) (tf : Transform)
    (s : SensorState) (ts : Timestamp) (rc : RssCheck)
    (hrc : s.mRssCheck = some rc) :
    guardBalanced (TickRssSensor check tf s ts).2.2 := by
  have key : (TickRssSensor check tf s ts).2.2 = [GuardEvent.tryAcquireFail] ∨
      (TickRssSensor check tf s ts).2.2 =
        [GuardEvent.tryAcquireSuccess, GuardEvent.release] := by
    unfold TickRssSensor
    by_cases h : s.processing_lock = true
    · rw [if_pos h]
      left
      rfl
    · rw [if_neg h, hrc]
      dsimp only
      cases check ts rc.egoVehicleDynamics rc.otherVehicleDynamics
          s.visualize_results with
      | error e =>
        right
        rfl
      | ok out =>
        right
        rfl
  constructor
  · rcases key with h | h <;> rw [h] <;> rfl
  · intro n
    rcases key with h | h <;> rw [h] <;> rcases n with _ | _ | n <;>
      simp [releaseCount, acquireCount, List.take]

/-- Witness for C2 at a concrete listening sensor. -/
theorem guard_release_matches_acquire_witness :
    listeningSensor.mRssCheck = some RssCheck.default ∧
    guardBalanced (TickRssSensor checkOk tf0 listeningSensor ts0).2.2 :=
  ⟨rfl, guard_release_matches_acquire checkOk tf0 listeningSensor ts0
    RssCheck.default rfl⟩

/-- C6: the verdict translation is total (a function on all 3 by 2 by 2
combinations), deterministic, injective, maps each variant to the
identically-named output variant, and sends the 12 input combinations to 12
distinct output combinations. -/
theorem response_translation_total_injective :
    Function.Injective translateTriple ∧
    translateLongitudinal ad_rss.LongitudinalResponse.None =
      sensor_data.LongitudinalResponse.None ∧
    translateLongitudinal ad_rss.LongitudinalResponse.BrakeMinCorrect =
      sensor_data.LongitudinalResponse.BrakeMinCorrect ∧
    translateLongitudinal ad_rss.LongitudinalResponse.BrakeMin =
      sensor_data.LongitudinalResponse.BrakeMin ∧
    translateLateralRight ad_rss.LateralResponse.None =
      sensor_data.LateralResponse.None ∧
    translateLateralRight ad_rss.LateralResponse.BrakeMin =
      sensor_data.LateralResponse.BrakeMin ∧
    translateLateralLeft ad_rss.LateralResponse.None =
      sensor_data.LateralResponse.None ∧
    translateLateralLeft ad_rss.LateralResponse.BrakeMin =
      sensor_data.LateralResponse.BrakeMin ∧
    Fintype.card ad_rss.ProperResponse = 12 ∧
    Finset.card (Finset.image translateTriple Finset.univ) = 12 := by
  refine ⟨by decide, rfl, rfl, rfl, rfl, rfl, rfl, rfl, by decide, by decide⟩

/-- C4: a tick in which the guarded external evaluation (snapshot gathering or
checkObjects) faults releases the guard, logs the fault and returns nullptr,
so the dispatcher invokes no callback for that tick; the listening flag and
the backend are unchanged and the subscription stays registered. -/
theorem fault_tick_releases_guard_no_callback
    (check : CheckOracle) (tf : Transform) (ts : Timestamp)
    (sensors : List (Nat × SensorState)) (i c : Nat)
    (s : SensorState) (rc : RssCheck) (e : String)
    (hs : List.lookup i sensors = some s)
    (hrc : s.mRssCheck = some rc) (hl : s.processing_lock = false)
    (he : check ts rc.egoVehicleDynamics rc.otherVehicleDynamics
        s.visualize_results = Except.error e) :
    ∃ s1, TickRssSensor check tf s ts =
        (none, s1, [GuardEvent.tryAcquireSuccess, GuardEvent.release]) ∧
      s1.processing_lock = false ∧
      s1.is_listening = s.is_listening ∧
      s1.mRssCheck = s.mRssCheck ∧
      s1.log = s.log ++ [e] ∧
      deliverTickAux check tf ts [{ cb := c, weak_self := i }] sensors =
        (updateSensor sensors i s1, []) := by
  refine ⟨{ s with processing_lock := false, log := s.log ++ [e] },
    tick_fault check tf ts s rc e hrc hl he, rfl, rfl, rfl, rfl, ?_⟩
  unfold deliverTickAux
  dsimp only
  rw [hs]
  dsimp only
  rw [tick_fault check tf ts s rc e hrc hl he]
  unfold deliverTickAux
  rfl

/-- Witness for C4 at a concrete listening sensor and a faulting evaluation. -/
theorem fault_tick_releases_guard_no_callback_witness :
    List.lookup 0 [(0, listeningSensor)] = some listeningSensor ∧
    listeningSensor.mRssCheck = some RssCheck.default ∧
    listeningSensor.processing_lock = false ∧
    checkErr ts0 RssCheck.default.egoVehicleDynamics
      RssCheck.default.otherVehicleDynamics listeningSensor.visualize_results =
      Except.error "evaluation failed" ∧
    ∃ s1, TickRssSensor checkErr tf0 listeningSensor ts0 =
        (none, s1, [GuardEvent.tryAcquireSuccess, GuardEvent.release]) ∧
      s1.processing_lock = false ∧
      s1.is_listening = listeningSensor.is_listening ∧
      s1.mRssCheck = listeningSensor.mRssCheck ∧
      s1.log = listeningSensor.log ++ ["evaluation failed"] ∧
      deliverTickAux checkErr tf0 ts0 [{ cb := 7, weak_self := 0 }]
          [(0, listeningSensor)] =
        (updateSensor [(0, listeningSensor)] 0 s1, []) :=
  ⟨rfl, rfl, rfl, rfl,
   fault_tick_releases_guard_no_callback checkErr tf0 ts0 [(0, listeningSensor)]
     0 7 listeningSensor RssCheck.default "evaluation failed" rfl rfl rfl rfl⟩

/-- C5: a tick delivered through an already-registered subscription whose weak
reference no longer resolves (the sensor was destroyed) is a no-op: the
subscription is skipped entirely, so no evaluation runs, no callback is
invoked and no fault is raised. -/
theorem destroyed_sensor_tick_noop (check : CheckOracle) (tf : Transform)
    (ts : Timestamp) (sub : Subscription) (rest : List Subscription)
    (sensors : List (Nat × SensorState))
    (h : List.lookup sub.weak_self sensors = none) :
    deliverTickAux check tf ts (sub :: rest) sensors =
      deliverTickAux check tf ts rest sensors := by
  conv_lhs => unfold deliverTickAux
  rw [h]

/-- Witness for C5 at a concrete dead subscription. -/
theorem destroyed_sensor_tick_noop_witness :
    List.lookup (Subscription.mk 1 5).weak_self ([] : List (Nat × SensorState)) =
      none ∧
    deliverTickAux checkOk tf0 ts0 [Subscription.mk 1 5] [] =
      deliverTickAux checkOk tf0 ts0 [] [] :=
  ⟨rfl, destroyed_sensor_tick_noop checkOk tf0 ts0 (Subscription.mk 1 5) [] [] rfl⟩

/-- C9: Listen called while already listening logs the error and returns with
no other effect: the call succeeds, the only change to the sensor is the log
line, the listening flag stays true, map and backend are untouched, and no
subscription is added (the registered ones are exactly the previous ones). -/
theorem second_listen_logs_error_no_effect (sim : SimState) (i c : Nat)
    (s : SensorState) (hs : List.lookup i sim.sensors = some s)
    (hl : s.is_listening = true) :
    SimListen sim i c =
      Except.ok
        { sensors := updateSensor sim.sensors i
            { s with log := s.log ++ ["already listening"] }
          subs := sim.subs } ∧
    ({ s with log := s.log ++ ["already listening"] } : SensorState).is_listening
      = true ∧
    ({ s with log := s.log ++ ["already listening"] } : SensorState).mRssCheck
      = s.mRssCheck ∧
    ({ s with log := s.log ++ ["already listening"] } : SensorState).map = s.map := by
  refine ⟨?_, hl, rfl, rfl⟩
  unfold SimListen
  rw [hs]
  dsimp only
  unfold ListenSensor
  rw [if_pos hl]

/-- Witness for C9 at a concrete already-listening session. -/
theorem second_listen_logs_error_no_effect_witness :
    List.lookup 0 (SimState.mk [(0, listeningSensor)] [Subscription.mk 7 0]).sensors
      = some listeningSensor ∧
    listeningSensor.is_listening = true ∧
    (SimListen (SimState.mk [(0, listeningSensor)] [Subscription.mk 7 0]) 0 9 =
      Except.ok
        { sensors := updateSensor [(0, listeningSensor)] 0
            { listeningSensor with log := listeningSensor.log ++ ["already listening"] }
          subs := [Subscription.mk 7 0] } ∧
    ({ listeningSensor with
        log := listeningSensor.log ++ ["already listening"] } : SensorState).is_listening
      = true ∧
    ({ listeningSensor with
        log := listeningSensor.log ++ ["already listening"] } : SensorState).mRssCheck
      = listeningSensor.mRssCheck ∧
    ({ listeningSensor with
        log := listeningSensor.log ++ ["already listening"] } : SensorState).map
      = listeningSensor.map) :=
  ⟨rfl, rfl,
   second_listen_logs_error_no_effect
     (SimState.mk [(0, listeningSensor)] [Subscription.mk 7 0]) 0 9
     listeningSensor rfl rfl⟩

/-- C7: for any sequence of ticks delivered while no evaluation is in flight
(guard free at the start, and every evaluation completes without fault before
the next tick), each tick yields exactly one Response, and that Response
carries the frame index and elapsed seconds of the tick timestamp; the sensor
ends in its initial state, guard free again. -/
theorem uncontended_ticks_one_response_each (check : CheckOracle)
    (tf : Transform) (s : SensorState) (rc : RssCheck) (tss : List Timestamp)
    (hrc : s.mRssCheck = some rc) (hl : s.processing_lock = false)
    (hok : ∀ ts d1 d2 viz, ∃ out, check ts d1 d2 viz = Except.ok out) :
    (runTicks check tf s tss).1 = s ∧
    ∃ rs : List Response,
      (runTicks check tf s tss).2 = rs.map some ∧
      rs.map (fun r => (r.frame, r.elapsed_seconds)) =
        tss.map (fun t => (t.frame, t.elapsed_seconds)) := by
  induction tss with
  | nil => exact ⟨rfl, [], rfl, rfl⟩
  | cons ts rest ih =>
    obtain ⟨out, hout⟩ := hok ts rc.egoVehicleDynamics rc.otherVehicleDynamics
      s.visualize_results
    have hstep := tick_ok check tf ts s rc out hrc hl hout
    obtain ⟨h1, rs, h2, h3⟩ := ih
    have hrun : runTicks check tf s (ts :: rest) =
        ((runTicks check tf s rest).1,
         some (makeResponse ts tf out.result out.response
           out.accelerationRestriction out.egoVelocity) ::
           (runTicks check tf s rest).2) := by
      conv_lhs => unfold runTicks
      dsimp only
      rw [hstep]
    refine ⟨?_, makeResponse ts tf out.result out.response
      out.accelerationRestriction out.egoVelocity :: rs, ?_, ?_⟩
    · rw [hrun]
      exact h1
    · rw [hrun, List.map_cons, h2]
    · rw [List.map_cons, List.map_cons, h3]
      rfl

/-- Witness for C7 at a concrete two-tick sequence. -/
theorem uncontended_ticks_one_response_each_witness :
    listeningSensor.mRssCheck = some RssCheck.default ∧
    listeningSensor.processing_lock = false ∧
    ((runTicks checkOk tf0 listeningSensor [ts0, Timestamp.mk 43 3]).1 =
        listeningSensor ∧
      ∃ rs : List Response,
        (runTicks checkOk tf0 listeningSensor [ts0, Timestamp.mk 43 3]).2 =
          rs.map some ∧
        rs.map (fun r => (r.frame, r.elapsed_seconds)) =
          [ts0, Timestamp.mk 43 3].map (fun t => (t.frame, t.elapsed_seconds))) :=
  ⟨rfl, rfl,
   uncontended_ticks_one_response_each checkOk tf0 listeningSensor
     RssCheck.default [ts0, Timestamp.mk 43 3] rfl rfl
     (fun _ _ _ _ => ⟨okOutcome, rfl⟩)⟩

/-- C8 counterexample: on a fresh sensor, before Listen has ever been called,
the evaluation backend is null and all four dynamics accessors dereference it
(modelled as none), refuting the claim that they are safe to call before
Listen. -/
theorem dynamics_accessors_before_listen_null :
    (initialSensor true).mRssCheck = none ∧
    GetEgoVehicleDynamics (initialSensor true) = none ∧
    GetOtherVehicleDynamics (initialSensor true) = none ∧
    SetEgoVehicleDynamics (initialSensor true) ad_rss.RssDynamics.default = none ∧
    SetOtherVehicleDynamics (initialSensor true) ad_rss.RssDynamics.default = none :=
  ⟨rfl, rfl, rfl, rfl, rfl⟩

/-- C8 (amended): once Listen has constructed the evaluation backend, the four
dynamics accessors succeed in any session state (Listening included), and a
profile installed via the setter is the one handed to the next evaluation. -/
theorem dynamics_accessors_after_backend (s : SensorState) (rc : RssCheck)
    (d : ad_rss.RssDynamics) (check : CheckOracle) (tf : Transform)
    (ts : Timestamp) (out : CheckOutcome)
    (hrc : s.mRssCheck = some rc) (hl : s.processing_lock = false)
    (hok : check ts d rc.otherVehicleDynamics s.visualize_results =
      Except.ok out) :
    GetEgoVehicleDynamics s = some rc.egoVehicleDynamics ∧
    GetOtherVehicleDynamics s = some rc.otherVehicleDynamics ∧
    (∃ s2, SetOtherVehicleDynamics s rc.otherVehicleDynamics = some s2) ∧
    ∃ s1, SetEgoVehicleDynamics s d = some s1 ∧
      GetEgoVehicleDynamics s1 = some d ∧
      GetOtherVehicleDynamics s1 = some rc.otherVehicleDynamics ∧
      (TickRssSensor check tf s1 ts).1 =
        some (makeResponse ts tf out.result out.response
          out.accelerationRestriction out.egoVelocity) := by
  refine ⟨?_, ?_, ?_, ?_⟩
  · unfold GetEgoVehicleDynamics
    rw [hrc]
  · unfold GetOtherVehicleDynamics
    rw [hrc]
  · refine ⟨{ s with mRssCheck := some { rc with otherVehicleDynamics := rc.otherVehicleDynamics } }, ?_⟩
    unfold SetOtherVehicleDynamics
    rw [hrc]
  · refine ⟨{ s with mRssCheck := some { rc with egoVehicleDynamics := d } },
      ?_, rfl, rfl, ?_⟩
    · unfold SetEgoVehicleDynamics
      rw [hrc]
    · rw [tick_ok check tf ts
        { s with mRssCheck := some { rc with egoVehicleDynamics := d } }
        { rc with egoVehicleDynamics := d } out rfl hl hok]

/-- Witness for the amended C8 at a concrete backend and profile. -/
theorem dynamics_accessors_after_backend_witness :
    listeningSensor.mRssCheck = some RssCheck.default ∧
    listeningSensor.processing_lock = false ∧
    checkOk ts0 (ad_rss.RssDynamics.mk 1 2 3)
      RssCheck.default.otherVehicleDynamics listeningSensor.visualize_results =
      Except.ok okOutcome ∧
    (GetEgoVehicleDynamics listeningSensor =
        some RssCheck.default.egoVehicleDynamics ∧
      GetOtherVehicleDynamics listeningSensor =
        some RssCheck.default.otherVehicleDynamics ∧
      (∃ s2, SetOtherVehicleDynamics listeningSensor
          RssCheck.default.otherVehicleDynamics = some s2) ∧
      ∃ s1, SetEgoVehicleDynamics listeningSensor (ad_rss.RssDynamics.mk 1 2 3) =
          some s1 ∧
        GetEgoVehicleDynamics s1 = some (ad_rss.RssDynamics.mk 1 2 3) ∧
        GetOtherVehicleDynamics s1 =
          some RssCheck.default.otherVehicleDynamics ∧
        (TickRssSensor checkOk tf0 s1 ts0).1 =
          some (makeResponse ts0 tf0 okOutcome.result okOutcome.response
            okOutcome.accelerationRestriction okOutcome.egoVelocity)) :=
  ⟨rfl, rfl, rfl,
   dynamics_accessors_after_backend listeningSensor RssCheck.default
     (ad_rss.RssDynamics.mk 1 2 3) checkOk tf0 ts0 okOutcome rfl rfl rfl⟩

/-- C3 is violated by the code: Stop only clears the listening flag (and its
own todo comment records the missing unsubscription), so after Listen then
Stop the subscription registered by Listen is still present, its closure does
not consult the flag, and the next world tick still runs TickRssSensor and
delivers a Response to the callback. -/
theorem stop_does_not_unsubscribe :
    (List.lookup 0 simStopped.sensors).map SensorState.is_listening =
      some false ∧
    simStopped.subs = [Subscription.mk 7 0] ∧
    (deliverTick checkOk tf0 simStopped ts0).2 =
      [(7, makeResponse ts0 tf0 okOutcome.result okOutcome.response
          okOutcome.accelerationRestriction okOutcome.egoVelocity)] :=
  ⟨rfl, rfl, rfl⟩

/-- C10: after Listen with cb1, Stop, then Listen with cb2, the subscription
registered by the first Listen remains next to the one of the second (Stop
leaves it registered and the already-listening check passes after Stop), so a
single subsequent tick runs the evaluation twice and delivers a Response to
cb1 and to cb2. -/
theorem listen_stop_listen_double_delivery (cb1 cb2 : Nat) :
    ∃ sim1 sim3 : SimState,
      SimListen sim0 0 cb1 = Except.ok sim1 ∧
      SimListen (SimStop sim1 0) 0 cb2 = Except.ok sim3 ∧
      (SimStop sim1 0).subs = [Subscription.mk cb1 0] ∧
      sim3.subs = [Subscription.mk cb1 0, Subscription.mk cb2 0] ∧
      (deliverTick checkOk tf0 sim3 ts0).2 =
        [(cb1, makeResponse ts0 tf0 okOutcome.result okOutcome.response
            okOutcome.accelerationRestriction okOutcome.egoVelocity),
         (cb2, makeResponse ts0 tf0 okOutcome.result okOutcome.response
            okOutcome.accelerationRestriction okOutcome.egoVelocity)] :=
  ⟨_, _, rfl, rfl, rfl, rfl, rfl⟩

end CarlaRss
